import Mathlib

/-!
Verification of the n8n ping / server-check nodes.

Shallow embedding of the four node implementations of the repository:
* `PingTrigger.poll` (ping-based trigger, nodes/Ping/PingTrigger.node.ts, first node),
* `PingTrigger.poll` of the Server Check Trigger (same file, second node),
* `Ping.execute` (ping execute node),
* `Ping.execute` of the Server Check node (`executeHttpCheck` / `executeTcpCheck`
  / `executeDnsCheck`).

Network probes are modelled as input data: a poll cycle receives the list of
probe outcomes the `ping` library would have produced (or the single
`CheckResult` of an HTTP/TCP/DNS check), and the embedding reproduces the
arithmetic, state update and trigger decision of the source.  TypeScript
numbers that carry latencies or percentages are embedded as `ℚ`; the
persisted failure counter and the configured threshold are `Int` (a user can
configure any number).  The `.toFixed(2)` rendering of latencies is
abstracted to `toString`, which preserves exactly what the claims observe:
whether a field is the "N/A" sentinel or a formatted number.
-/

namespace PingNodes

/-- One outcome of `ping.promise.probe` as consumed by the loops of
`PingTrigger.poll` and `Ping.execute`: `alive`, the parsed round-trip time
(`parseFloat(result.time) || 0`), the raw `output` and `numeric_host`. -/
structure ProbeResult where
  alive : Bool
  time : ℚ
  output : String
  numericHost : String
deriving DecidableEq

/-- Accumulator of the ping loop (`successCount`, `totalTime`, `minTime`,
`maxTime`, `lastOutput`, `numericHost`).  `minTime` starts at `Infinity` in
the source; the `Infinity` sentinel is embedded as `none`. -/
structure AggState where
  successCount : Nat
  totalTime : ℚ
  minTime : Option ℚ
  maxTime : ℚ
  lastOutput : String
  numericHost : String
deriving DecidableEq

/-- Initial accumulator: `successCount = 0`, `totalTime = 0`,
`minTime = Infinity` (`none`), `maxTime = 0`. -/
def aggInit : AggState :=
  { successCount := 0, totalTime := 0, minTime := none, maxTime := 0
    lastOutput := "", numericHost := "" }

/-- One iteration of the ping loop: on `alive` increment `successCount`, add
the time, update `minTime` (`time < minTime`, everything is below
`Infinity`) and `maxTime` (`time > maxTime`); always record the last
`output` and `numeric_host`. -/
def aggStep (s : AggState) (r : ProbeResult) : AggState :=
  let s1 :=
    if r.alive then
      { s with
        successCount := s.successCount + 1
        totalTime := s.totalTime + r.time
        minTime :=
          match s.minTime with
          | none => some r.time
          | some m => if r.time < m then some r.time else some m
        maxTime := if r.time > s.maxTime then r.time else s.maxTime }
    else s
  { s1 with lastOutput := r.output, numericHost := r.numericHost }

/-- The whole ping loop over the per-cycle probe outcomes. -/
def aggregate (rs : List ProbeResult) : AggState :=
  rs.foldl aggStep aggInit

/-- Source: `const isAlive = successCount > 0`. -/
def aggAlive (s : AggState) : Bool :=
  decide (s.successCount > 0)

/-- Source: `const avgTime = successCount > 0 ? totalTime / successCount : 0`. -/
def avgTime (s : AggState) : ℚ :=
  if s.successCount > 0 then s.totalTime / s.successCount else 0

/-- Source: `const packetLoss = ((numberOfPings - successCount) / numberOfPings) * 100`. -/
def packetLoss (numberOfPings : Nat) (s : AggState) : ℚ :=
  (((numberOfPings : ℚ) - (s.successCount : ℚ)) / (numberOfPings : ℚ)) * 100

/-- Counter update of both trigger nodes: `if (!alive) newCF++ else newCF = 0`. -/
def updateFailures (consecutiveFailures : Int) (alive : Bool) : Int :=
  if !alive then consecutiveFailures + 1 else 0

/-- Source: `const isOffline = newConsecutiveFailures >= failureThreshold`. -/
def isOffline (consecutiveFailures failureThreshold : Int) : Bool :=
  decide (consecutiveFailures ≥ failureThreshold)

/-- Source: `const currentStatus = !isOffline && isAlive` (both trigger nodes). -/
def debouncedStatus (consecutiveFailures failureThreshold : Int) (alive : Bool) : Bool :=
  !(isOffline consecutiveFailures failureThreshold) && alive

/-- The per-node static data of a trigger node: `previousStatus` (absent on
the first poll) and `consecutiveFailures` (`|| 0` makes it 0 initially). -/
structure NodeState where
  previousStatus : Option Bool
  consecutiveFailures : Int
deriving DecidableEq

/-- The state the workflow engine hands to the very first poll cycle. -/
def initialNodeState : NodeState :=
  { previousStatus := none, consecutiveFailures := 0 }

/-- The `switch (triggerMode)` of the ping trigger node, returning
`(shouldTrigger, triggerReason)`.  The trigger mode is the raw string of the
source: an unrecognized mode falls through every case and never fires. -/
def pingTriggerDecide (triggerMode : String) (previousStatus : Option Bool)
    (currentStatus isAlive : Bool) (avgT latencyThreshold : ℚ) : Bool × String :=
  if triggerMode = "statusChange" then
    match previousStatus with
    | none => (true, "Initial status check")
    | some p =>
      if p ≠ currentStatus then
        (true, if currentStatus then "Host came online" else "Host went offline")
      else (false, "")
  else if triggerMode = "everyPoll" then (true, "Scheduled poll")
  else if triggerMode = "onlyOffline" then
    if !currentStatus then (true, "Host is offline") else (false, "")
  else if triggerMode = "onlyOnline" then
    if currentStatus then (true, "Host is online") else (false, "")
  else if triggerMode = "highLatency" then
    if isAlive && decide (avgT > latencyThreshold) then
      (true, "High latency detected (" ++ toString avgT ++ "ms > "
        ++ toString latencyThreshold ++ "ms threshold)")
    else (false, "")
  else (false, "")

/-- Resolved configuration of the ping trigger node after the `??` defaults
of `poll` (`timeout ?? 10`, `numberOfPings ?? 3`, `failureThreshold ?? 2`). -/
structure PingPollConfig where
  triggerMode : String
  latencyThreshold : ℚ
  timeout : Int
  numberOfPings : Nat
  failureThreshold : Int
  includeRawOutput : Bool
deriving DecidableEq

/-- The fields of `outputData` (and of the updated static data) that the
claims observe, as built by one `PingTrigger.poll` cycle. -/
structure PingPollOut where
  host : String
  alive : Bool
  status : String
  currentStatus : Bool
  responseTime : String
  responseTimeMs : ℚ
  packetLossPercent : ℚ
  minTime : String
  maxTime : String
  consecutiveFailures : Int
  fired : Bool
  triggerReason : String
  newState : NodeState
deriving DecidableEq

/-- One poll cycle of the ping trigger node (`PingTrigger.poll`): aggregate
the probe outcomes, update the failure counter, debounce the status, build
the output fields and take the trigger decision.  `rs` is the list of probe
outcomes of this cycle (the source loops `numberOfPings` times). -/
def pingPoll (host : String) (cfg : PingPollConfig) (st : NodeState)
    (rs : List ProbeResult) : PingPollOut :=
  let agg := aggregate rs
  let alive := aggAlive agg
  let avgT := avgTime agg
  let newCF := updateFailures st.consecutiveFailures alive
  let cur := debouncedStatus newCF cfg.failureThreshold alive
  let dec := pingTriggerDecide cfg.triggerMode st.previousStatus cur alive avgT
    cfg.latencyThreshold
  { host := host
    alive := alive
    status := if cur then "online" else "offline"
    currentStatus := cur
    responseTime := if avgT > 0 then toString avgT ++ " ms" else "N/A"
    responseTimeMs := avgT
    packetLossPercent := packetLoss cfg.numberOfPings agg
    minTime :=
      match agg.minTime with
      | some m => toString m ++ " ms"
      | none => "N/A"
    maxTime := if agg.maxTime > 0 then toString agg.maxTime ++ " ms" else "N/A"
    consecutiveFailures := newCF
    fired := dec.1
    triggerReason := dec.2
    newState := { previousStatus := some cur, consecutiveFailures := newCF } }

/-- Iterated poll cycles: the static data written by one cycle is the state
read by the next. -/
def pingPollRun (host : String) (cfg : PingPollConfig) (st : NodeState)
    (cycles : List (List ProbeResult)) : NodeState :=
  cycles.foldl (fun s rs => (pingPoll host cfg s rs).newState) st

/-! ## Server Check Trigger node (second node of PingTrigger.node.ts) -/

/-- The `CheckResult` interface of the Server Check Trigger: outcome of one
HTTP/TCP/DNS check. -/
structure CheckResult where
  reachable : Bool
  responseTimeMs : ℚ
  error : Option String
  statusCode : Option Nat
  resolvedIp : Option String
deriving DecidableEq

/-- The `switch (triggerMode)` of the Server Check Trigger; identical in
structure to `pingTriggerDecide` but with "Server ..." reason texts and the
raw check outcome in place of the ping aggregate. -/
def serverTriggerDecide (triggerMode : String) (previousStatus : Option Bool)
    (currentStatus reachable : Bool) (responseTimeMs latencyThreshold : ℚ) :
    Bool × String :=
  if triggerMode = "statusChange" then
    match previousStatus with
    | none => (true, "Initial status check")
    | some p =>
      if p ≠ currentStatus then
        (true, if currentStatus then "Server came online" else "Server went offline")
      else (false, "")
  else if triggerMode = "everyPoll" then (true, "Scheduled poll")
  else if triggerMode = "onlyOffline" then
    if !currentStatus then (true, "Server is offline") else (false, "")
  else if triggerMode = "onlyOnline" then
    if currentStatus then (true, "Server is online") else (false, "")
  else if triggerMode = "highLatency" then
    if reachable && decide (responseTimeMs > latencyThreshold) then
      (true, "High latency detected (" ++ toString responseTimeMs ++ "ms > "
        ++ toString latencyThreshold ++ "ms threshold)")
    else (false, "")
  else (false, "")

/-- Resolved configuration of the Server Check Trigger after the `??`
defaults (`timeout ?? 10`, `failureThreshold ?? 2`). -/
structure ServerPollConfig where
  triggerMode : String
  latencyThreshold : ℚ
  timeout : Int
  failureThreshold : Int
deriving DecidableEq

/-- The observable fields of one Server Check Trigger cycle. -/
structure ServerCycleOut where
  target : String
  reachable : Bool
  status : String
  currentStatus : Bool
  responseTimeMs : ℚ
  error : Option String
  statusCode : Option Nat
  resolvedIp : Option String
  consecutiveFailures : Int
  fired : Bool
  triggerReason : String
  newState : NodeState
deriving DecidableEq

/-- The part of `poll` in the Server Check Trigger that runs after a check
was performed (counter update, debounce, output, trigger decision): lines
644-732 of the source. -/
def serverCycle (target : String) (cfg : ServerPollConfig) (st : NodeState)
    (chk : CheckResult) : ServerCycleOut :=
  let newCF := updateFailures st.consecutiveFailures chk.reachable
  let cur := debouncedStatus newCF cfg.failureThreshold chk.reachable
  let dec := serverTriggerDecide cfg.triggerMode st.previousStatus cur
    chk.reachable chk.responseTimeMs cfg.latencyThreshold
  { target := target
    reachable := chk.reachable
    status := if cur then "online" else "offline"
    currentStatus := cur
    responseTimeMs := chk.responseTimeMs
    error := chk.error
    statusCode := chk.statusCode
    resolvedIp := chk.resolvedIp
    consecutiveFailures := newCF
    fired := dec.1
    triggerReason := dec.2
    newState := { previousStatus := some cur, consecutiveFailures := newCF } }

/-- The dispatch `switch (checkType)` inside `poll` of the Server Check Trigger: for the
known types `http`/`tcp`/`dns` the corresponding check runs (its outcome is
the input `chk`) and the cycle proceeds; the `default` branch is
`return null` — no error, no state update, no event. -/
def serverPoll (checkType target : String) (cfg : ServerPollConfig)
    (st : NodeState) (chk : CheckResult) : Option ServerCycleOut :=
  if checkType = "http" ∨ checkType = "tcp" ∨ checkType = "dns" then
    some (serverCycle target cfg st chk)
  else none

/-! ## Option resolution of the trigger nodes

`PingTrigger.poll` reads its options with `??` defaults and performs no
validation: an explicitly configured value — including 0 or a negative
number — is used as given; only an absent value receives the documented
default. -/

/-- Source: `options.timeout ?? 10`. -/
def resolveTimeout (o : Option Int) : Int := o.getD 10

/-- Source: `options.numberOfPings ?? 3`. -/
def resolveNumberOfPings (o : Option Int) : Int := o.getD 3

/-- Source: `options.failureThreshold ?? 2`. -/
def resolveFailureThreshold (o : Option Int) : Int := o.getD 2

/-! ## Server Check execute node (`Ping.execute` of part_000) -/

/-- What the network hands back to `executeHttpCheck`: the response callback
with its status code (`res.statusCode || 0` embeds an absent code as 0), the
`timeout` event, or the `error` event. -/
inductive HttpEvent
  | response (statusCode : Nat) (statusMessage : String)
  | timedOut
  | failed (message : String)
deriving DecidableEq

/-- Outcome record shared by the three check functions of the Server Check
execute node. -/
structure ExecCheckOut where
  reachable : Bool
  status : String
  error : Option String
  statusCode : Option Nat
  resolvedIp : Option String
  ipFamily : Option String
  responseTimeMs : ℚ
deriving DecidableEq

/-- Function `executeHttpCheck` of the Server Check execute node: empty URL is a
`NodeOperationError` before any request; on a response, reachability is
`acceptAnyStatus ? true : statusCode >= 200 && statusCode < 400`; timeout
and error events are probe failures.  `elapsed` is the measured wall-clock
time `Date.now() - startTime`. -/
def execHttpCheck (url method : String) (acceptAnyStatus : Bool)
    (timeout : ℚ) (ev : HttpEvent) (elapsed : ℚ) : Except String ExecCheckOut :=
  if url = "" then Except.error "URL is required"
  else
    Except.ok <|
      match ev with
      | .response code _ =>
        let isReachable :=
          if acceptAnyStatus then true else decide (code ≥ 200) && decide (code < 400)
        { reachable := isReachable
          status := if isReachable then "online" else "offline"
          error := none
          statusCode := some code
          resolvedIp := none
          ipFamily := none
          responseTimeMs := elapsed }
      | .timedOut =>
        { reachable := false, status := "offline", error := some "Connection timeout"
          statusCode := none, resolvedIp := none, ipFamily := none
          responseTimeMs := timeout }
      | .failed m =>
        { reachable := false, status := "offline", error := some m
          statusCode := none, resolvedIp := none, ipFamily := none
          responseTimeMs := elapsed }

/-- Default of the `acceptAnyStatus` parameter in the UI schema of the node. -/
def acceptAnyStatusDefault : Bool := true

/-- Socket outcome for a TCP check. -/
inductive TcpEvent
  | connected
  | timedOut
  | failed (message : String)
deriving DecidableEq

/-- Function `executeTcpCheck` of the Server Check execute node: empty host is a
`NodeOperationError`; connect/timeout/error events map to the outcome
record. -/
def execTcpCheck (host : String) (port : Int) (timeout : ℚ) (ev : TcpEvent)
    (elapsed : ℚ) : Except String ExecCheckOut :=
  if host = "" then Except.error "Host is required"
  else
    Except.ok <|
      match ev with
      | .connected =>
        { reachable := true, status := "online", error := none
          statusCode := none, resolvedIp := none, ipFamily := none
          responseTimeMs := elapsed }
      | .timedOut =>
        { reachable := false, status := "offline", error := some "Connection timeout"
          statusCode := none, resolvedIp := none, ipFamily := none
          responseTimeMs := elapsed }
      | .failed m =>
        { reachable := false, status := "offline", error := some m
          statusCode := none, resolvedIp := none, ipFamily := none
          responseTimeMs := elapsed }

/-- Resolver outcome for a DNS check (`family` is 4 or 6). -/
inductive DnsEvent
  | resolved (address : String) (family : Nat)
  | timedOut
  | failed (message : String)
deriving DecidableEq

/-- Function `executeDnsCheck` of the Server Check execute node: empty domain is a
`NodeOperationError`; a resolved address is reachable with `resolvedIp` and
`ipFamily`; timeout and lookup errors are probe failures. -/
def execDnsCheck (domain : String) (timeout : ℚ) (ev : DnsEvent)
    (elapsed : ℚ) : Except String ExecCheckOut :=
  if domain = "" then Except.error "Domain is required"
  else
    Except.ok <|
      match ev with
      | .resolved address family =>
        { reachable := true, status := "online", error := none
          statusCode := none, resolvedIp := some address
          ipFamily := some ("IPv" ++ toString family)
          responseTimeMs := elapsed }
      | .timedOut =>
        { reachable := false, status := "offline", error := some "DNS lookup timeout"
          statusCode := none, resolvedIp := none, ipFamily := none
          responseTimeMs := timeout }
      | .failed m =>
        { reachable := false, status := "offline", error := some m
          statusCode := none, resolvedIp := none, ipFamily := none
          responseTimeMs := elapsed }

/-- The dispatch `switch (checkType)` inside `execute` of the Server Check execute node:
dispatch to the matching check, and — unlike the trigger — the `default`
branch throws `Unknown check type`. -/
def serverCheckExecuteItem (checkType url method : String) (acceptAnyStatus : Bool)
    (host : String) (port : Int) (domain : String) (timeout : ℚ)
    (hev : HttpEvent) (tev : TcpEvent) (dev : DnsEvent) (elapsed : ℚ) :
    Except String ExecCheckOut :=
  if checkType = "http" then execHttpCheck url method acceptAnyStatus timeout hev elapsed
  else if checkType = "tcp" then execTcpCheck host port timeout tev elapsed
  else if checkType = "dns" then execDnsCheck domain timeout dev elapsed
  else Except.error ("Unknown check type: " ++ checkType)

/-- The `executeHttpCheck` of the trigger node (second node of the file): any
response at all is `reachable: true` — there is no status-code policy. -/
def triggerHttpCheck (ev : HttpEvent) (timeout elapsed : ℚ) : CheckResult :=
  match ev with
  | .response code _ =>
    { reachable := true, responseTimeMs := elapsed, error := none
      statusCode := some code, resolvedIp := none }
  | .timedOut =>
    { reachable := false, responseTimeMs := timeout
      error := some "Connection timeout", statusCode := none, resolvedIp := none }
  | .failed m =>
    { reachable := false, responseTimeMs := elapsed, error := some m
      statusCode := none, resolvedIp := none }

/-! ## Ping execute node (`Ping.execute`) -/

/-- The `details` block of the output of the Ping execute node. -/
structure PingExecDetails where
  pingsAttempted : Nat
  pingsSuccessful : Nat
  pingsFailed : Nat
  averageTime : String
  minTime : String
  maxTime : String
deriving DecidableEq

/-- The `details` fields as built from the loop statistics: each latency
statistic falls back to the "N/A" sentinel (`avgTime > 0`,
`minTime !== Infinity`, `maxTime > 0`). -/
def pingExecDetailsOf (numberOfPings : Nat) (agg : AggState) : PingExecDetails :=
  { pingsAttempted := numberOfPings
    pingsSuccessful := agg.successCount
    pingsFailed := numberOfPings - agg.successCount
    averageTime :=
      if avgTime agg > 0 then toString (avgTime agg) ++ " ms" else "N/A"
    minTime :=
      match agg.minTime with
      | some m => toString m ++ " ms"
      | none => "N/A"
    maxTime :=
      if agg.maxTime > 0 then toString agg.maxTime ++ " ms" else "N/A" }

/-- Output of the Ping execute node for one input item. -/
structure PingExecOut where
  host : String
  alive : Bool
  status : String
  packetLossPct : ℚ
  details : Option PingExecDetails
deriving DecidableEq

/-- One item of `Ping.execute`: empty host is a `NodeOperationError` before
any probe; otherwise the ping loop runs and the output is built from the
last probe and the aggregate statistics.  The source reads
`pingResults[pingResults.length - 1]` — on an empty list (numberOfPings = 0)
that is `undefined` and the node would crash; the claims never exercise it
and the embedding returns `alive = false` there. -/
def pingExecuteItem (host : String) (numberOfPings : Nat) (includeDetails : Bool)
    (rs : List ProbeResult) : Except String PingExecOut :=
  if host = "" then Except.error "Host is required"
  else
    let agg := aggregate rs
    let lastAlive := (rs.getLast?.map (fun r => r.alive)).getD false
    Except.ok
      { host := host
        alive := lastAlive
        status := if lastAlive then "reachable" else "unreachable"
        packetLossPct := packetLoss numberOfPings agg
        details :=
          if includeDetails then some (pingExecDetailsOf numberOfPings agg) else none }

/-! ## Concrete inputs used by witnesses and counterexamples -/

/-- A probe attempt that failed. -/
def deadProbe : ProbeResult :=
  { alive := false, time := 0, output := "timeout", numericHost := "" }

/-- A probe attempt that succeeded in `t` milliseconds. -/
def aliveProbe (t : ℚ) : ProbeResult :=
  { alive := true, time := t, output := "ok", numericHost := "1.2.3.4" }

/-- A ping-trigger configuration with the given mode and failure threshold
and the documented defaults elsewhere. -/
def mkPingCfg (mode : String) (k : Int) : PingPollConfig :=
  { triggerMode := mode, latencyThreshold := 100, timeout := 10
    numberOfPings := 3, failureThreshold := k, includeRawOutput := false }

/-- A server-trigger configuration with the given mode and failure threshold
and the documented defaults elsewhere. -/
def mkServerCfg (mode : String) (k : Int) : ServerPollConfig :=
  { triggerMode := mode, latencyThreshold := 1000, timeout := 10000
    failureThreshold := k }

/-- An unreachable check outcome. -/
def chkDead : CheckResult :=
  { reachable := false, responseTimeMs := 0, error := some "ECONNREFUSED"
    statusCode := none, resolvedIp := none }

/-- A reachable check outcome in `t` milliseconds. -/
def chkAlive (t : ℚ) : CheckResult :=
  { reachable := true, responseTimeMs := t, error := none
    statusCode := some 200, resolvedIp := none }

/-! ## Projection lemmas (definitional) -/

theorem pingPoll_alive (host : String) (cfg : PingPollConfig) (st : NodeState)
    (rs : List ProbeResult) :
    (pingPoll host cfg st rs).alive = aggAlive (aggregate rs) := rfl

theorem pingPoll_newCF (host : String) (cfg : PingPollConfig) (st : NodeState)
    (rs : List ProbeResult) :
    (pingPoll host cfg st rs).newState.consecutiveFailures
      = updateFailures st.consecutiveFailures (aggAlive (aggregate rs)) := rfl

theorem pingPoll_currentStatus (host : String) (cfg : PingPollConfig) (st : NodeState)
    (rs : List ProbeResult) :
    (pingPoll host cfg st rs).currentStatus
      = debouncedStatus (updateFailures st.consecutiveFailures (aggAlive (aggregate rs)))
          cfg.failureThreshold (aggAlive (aggregate rs)) := rfl

theorem pingPoll_fired (host : String) (cfg : PingPollConfig) (st : NodeState)
    (rs : List ProbeResult) :
    (pingPoll host cfg st rs).fired
      = (pingTriggerDecide cfg.triggerMode st.previousStatus
          (pingPoll host cfg st rs).currentStatus (aggAlive (aggregate rs))
          (avgTime (aggregate rs)) cfg.latencyThreshold).1 := rfl

theorem pingPoll_triggerReason (host : String) (cfg : PingPollConfig) (st : NodeState)
    (rs : List ProbeResult) :
    (pingPoll host cfg st rs).triggerReason
      = (pingTriggerDecide cfg.triggerMode st.previousStatus
          (pingPoll host cfg st rs).currentStatus (aggAlive (aggregate rs))
          (avgTime (aggregate rs)) cfg.latencyThreshold).2 := rfl

theorem pingPoll_newState_previousStatus (host : String) (cfg : PingPollConfig)
    (st : NodeState) (rs : List ProbeResult) :
    (pingPoll host cfg st rs).newState.previousStatus
      = some (pingPoll host cfg st rs).currentStatus := rfl

theorem serverCycle_newCF (target : String) (cfg : ServerPollConfig) (st : NodeState)
    (chk : CheckResult) :
    (serverCycle target cfg st chk).newState.consecutiveFailures
      = updateFailures st.consecutiveFailures chk.reachable := rfl

theorem serverCycle_currentStatus (target : String) (cfg : ServerPollConfig)
    (st : NodeState) (chk : CheckResult) :
    (serverCycle target cfg st chk).currentStatus
      = debouncedStatus (updateFailures st.consecutiveFailures chk.reachable)
          cfg.failureThreshold chk.reachable := rfl

theorem serverCycle_fired (target : String) (cfg : ServerPollConfig) (st : NodeState)
    (chk : CheckResult) :
    (serverCycle target cfg st chk).fired
      = (serverTriggerDecide cfg.triggerMode st.previousStatus
          (serverCycle target cfg st chk).currentStatus chk.reachable
          chk.responseTimeMs cfg.latencyThreshold).1 := rfl

theorem serverCycle_triggerReason (target : String) (cfg : ServerPollConfig)
    (st : NodeState) (chk : CheckResult) :
    (serverCycle target cfg st chk).triggerReason
      = (serverTriggerDecide cfg.triggerMode st.previousStatus
          (serverCycle target cfg st chk).currentStatus chk.reachable
          chk.responseTimeMs cfg.latencyThreshold).2 := rfl

theorem serverCycle_newState_previousStatus (target : String) (cfg : ServerPollConfig)
    (st : NodeState) (chk : CheckResult) :
    (serverCycle target cfg st chk).newState.previousStatus
      = some (serverCycle target cfg st chk).currentStatus := rfl

/-! ## Debounce lemmas -/

/-- Booleans `!(cf ≥ K) && alive` and `(cf < K) && alive` coincide. -/
theorem debouncedStatus_eq_lt (cf k : Int) (alive : Bool) :
    debouncedStatus cf k alive = (decide (cf < k) && alive) := by
  unfold debouncedStatus isOffline
  congr 1
  rw [← decide_not]
  exact decide_eq_decide.mpr not_le

/-- After the counter update, a reachable cycle has counter 0 and a
threshold of at least 1 keeps it below the threshold, so the debounced
status coincides with raw reachability. -/
theorem debouncedStatus_update_eq_alive (cf k : Int) (alive : Bool) (hk : 1 ≤ k) :
    debouncedStatus (updateFailures cf alive) k alive = alive := by
  cases alive with
  | false => simp [debouncedStatus]
  | true =>
    have h0 : updateFailures cf true = 0 := by simp [updateFailures]
    rw [h0, debouncedStatus_eq_lt]
    simp only [Bool.and_true, decide_eq_true_eq]
    omega

theorem updateFailures_nonneg (cf : Int) (alive : Bool) (h : 0 ≤ cf) :
    0 ≤ updateFailures cf alive := by
  unfold updateFailures
  cases alive <;> simp <;> omega

/-- Starting from a non-negative counter, any run of poll cycles keeps the
counter non-negative. -/
theorem pingPollRun_nonneg (host : String) (cfg : PingPollConfig)
    (cycles : List (List ProbeResult)) :
    ∀ st : NodeState, 0 ≤ st.consecutiveFailures →
      0 ≤ (pingPollRun host cfg st cycles).consecutiveFailures := by
  induction cycles with
  | nil => intro st h; simpa [pingPollRun] using h
  | cons c t ih =>
    intro st h
    have hstep : 0 ≤ (pingPoll host cfg st c).newState.consecutiveFailures := by
      rw [pingPoll_newCF]
      exact updateFailures_nonneg _ _ h
    exact ih _ hstep

/-- C1: in every poll cycle of either trigger node, a reachable aggregate
resets the persisted `consecutiveFailures` to 0 and an unreachable one
increments it by exactly 1; the debounced status equals
`(consecutiveFailures < failureThreshold) AND reachable-this-cycle`; the
counter stays non-negative (also along any run of cycles from the initial
state), and a single reachable cycle yields debounced status `true`. -/
theorem C1_debounce_counter_and_status (host : String) (cfg : PingPollConfig)
    (st : NodeState) (rs : List ProbeResult)
    (hk : 1 ≤ cfg.failureThreshold) (h0 : 0 ≤ st.consecutiveFailures) :
    ((pingPoll host cfg st rs).alive = true →
      (pingPoll host cfg st rs).newState.consecutiveFailures = 0) ∧
    ((pingPoll host cfg st rs).alive = false →
      (pingPoll host cfg st rs).newState.consecutiveFailures
        = st.consecutiveFailures + 1) ∧
    (pingPoll host cfg st rs).currentStatus
      = (decide ((pingPoll host cfg st rs).newState.consecutiveFailures
          < cfg.failureThreshold) && (pingPoll host cfg st rs).alive) ∧
    0 ≤ (pingPoll host cfg st rs).newState.consecutiveFailures ∧
    ((pingPoll host cfg st rs).alive = true →
      (pingPoll host cfg st rs).currentStatus = true) ∧
    (∀ cycles : List (List ProbeResult),
      0 ≤ (pingPollRun host cfg initialNodeState cycles).consecutiveFailures) ∧
    (∀ (target : String) (scfg : ServerPollConfig) (sst : NodeState) (chk : CheckResult),
      1 ≤ scfg.failureThreshold → 0 ≤ sst.consecutiveFailures →
      ((serverCycle target scfg sst chk).newState.consecutiveFailures
          = if chk.reachable then 0 else sst.consecutiveFailures + 1) ∧
      (serverCycle target scfg sst chk).currentStatus
        = (decide ((serverCycle target scfg sst chk).newState.consecutiveFailures
            < scfg.failureThreshold) && chk.reachable) ∧
      0 ≤ (serverCycle target scfg sst chk).newState.consecutiveFailures ∧
      (chk.reachable = true → (serverCycle target scfg sst chk).currentStatus = true)) := by
  refine ⟨?_, ?_, ?_, ?_, ?_, ?_, ?_⟩
  · intro ha
    rw [pingPoll_newCF]
    rw [pingPoll_alive] at ha
    simp [updateFailures, ha]
  · intro ha
    rw [pingPoll_newCF]
    rw [pingPoll_alive] at ha
    simp [updateFailures, ha]
  · rw [pingPoll_currentStatus, pingPoll_newCF, pingPoll_alive, debouncedStatus_eq_lt]
  · rw [pingPoll_newCF]
    exact updateFailures_nonneg _ _ h0
  · intro ha
    rw [pingPoll_currentStatus]
    rw [pingPoll_alive] at ha
    rw [ha]
    exact debouncedStatus_update_eq_alive _ _ _ hk
  · intro cycles
    exact pingPollRun_nonneg host cfg cycles initialNodeState (by simp [initialNodeState])
  · intro target scfg sst chk hks h0s
    refine ⟨?_, ?_, ?_, ?_⟩
    · rw [serverCycle_newCF]
      cases hr : chk.reachable <;> simp [updateFailures, hr]
    · rw [serverCycle_currentStatus, serverCycle_newCF, debouncedStatus_eq_lt]
    · rw [serverCycle_newCF]
      exact updateFailures_nonneg _ _ h0s
    · intro hr
      rw [serverCycle_currentStatus, hr]
      exact debouncedStatus_update_eq_alive _ _ _ hks

/-- Witness for C1 at a concrete input: threshold 2, initial state, one
cycle of three failed pings — the persisted counter is non-negative. -/
theorem C1_debounce_counter_and_status_witness :
    0 ≤ (pingPoll "example.com" (mkPingCfg "statusChange" 2) initialNodeState
        [deadProbe, deadProbe, deadProbe]).newState.consecutiveFailures :=
  (C1_debounce_counter_and_status "example.com" (mkPingCfg "statusChange" 2)
    initialNodeState [deadProbe, deadProbe, deadProbe]
    (by decide) (by decide)).2.2.2.1

/-- C2 (divergence witness): with `failureThreshold = 2`, a previously
online host and a reset counter, the very first all-failed cycle already
reports status `offline` and fires "Host went offline" — the code conjoins
raw reachability into the debounced status, so the first failed cycle does
not report `true` as the claim requires. -/
theorem C2_first_failure_already_offline :
    (pingPoll "example.com" (mkPingCfg "statusChange" 2)
        { previousStatus := some true, consecutiveFailures := 0 }
        [deadProbe, deadProbe, deadProbe]).consecutiveFailures = 1 ∧
    (pingPoll "example.com" (mkPingCfg "statusChange" 2)
        { previousStatus := some true, consecutiveFailures := 0 }
        [deadProbe, deadProbe, deadProbe]).currentStatus = false ∧
    (pingPoll "example.com" (mkPingCfg "statusChange" 2)
        { previousStatus := some true, consecutiveFailures := 0 }
        [deadProbe, deadProbe, deadProbe]).status = "offline" ∧
    (pingPoll "example.com" (mkPingCfg "statusChange" 2)
        { previousStatus := some true, consecutiveFailures := 0 }
        [deadProbe, deadProbe, deadProbe]).fired = true ∧
    (pingPoll "example.com" (mkPingCfg "statusChange" 2)
        { previousStatus := some true, consecutiveFailures := 0 }
        [deadProbe, deadProbe, deadProbe]).triggerReason = "Host went offline" := by
  refine ⟨rfl, rfl, rfl, rfl, rfl⟩

/-- C3: for every threshold ≥ 1, every persisted state and every probe
outcome, the debounced status of a poll cycle equals the raw reachability of
that cycle, in both trigger nodes — the failure threshold never changes the
reported online/offline status. -/
theorem C3_status_equals_raw_reachability (host : String) (cfg : PingPollConfig)
    (st : NodeState) (rs : List ProbeResult) (hk : 1 ≤ cfg.failureThreshold) :
    (pingPoll host cfg st rs).currentStatus = (pingPoll host cfg st rs).alive ∧
    ∀ (target : String) (scfg : ServerPollConfig) (sst : NodeState) (chk : CheckResult),
      1 ≤ scfg.failureThreshold →
      (serverCycle target scfg sst chk).currentStatus = chk.reachable := by
  constructor
  · rw [pingPoll_currentStatus, pingPoll_alive]
    exact debouncedStatus_update_eq_alive _ _ _ hk
  · intro target scfg sst chk hks
    rw [serverCycle_currentStatus]
    exact debouncedStatus_update_eq_alive _ _ _ hks

/-- Witness for C3 at a concrete input: threshold 3, a state deep in a
failure streak, one successful cycle — status equals raw reachability. -/
theorem C3_status_equals_raw_reachability_witness :
    (pingPoll "example.com" (mkPingCfg "onlyOnline" 3)
        { previousStatus := some false, consecutiveFailures := 7 }
        [aliveProbe 12]).currentStatus
      = (pingPoll "example.com" (mkPingCfg "onlyOnline" 3)
        { previousStatus := some false, consecutiveFailures := 7 }
        [aliveProbe 12]).alive :=
  (C3_status_equals_raw_reachability "example.com" (mkPingCfg "onlyOnline" 3)
    { previousStatus := some false, consecutiveFailures := 7 }
    [aliveProbe 12] (by decide)).1

/-! ## Aggregation lemmas -/

theorem aggStep_successCount (s : AggState) (r : ProbeResult) :
    (aggStep s r).successCount
      = if r.alive then s.successCount + 1 else s.successCount := by
  cases hr : r.alive <;> simp [aggStep, hr]

/-- The success counter never decreases along the ping loop. -/
theorem foldl_aggStep_successCount_mono (rs : List ProbeResult) :
    ∀ s : AggState, s.successCount ≤ (List.foldl aggStep s rs).successCount := by
  induction rs with
  | nil => intro s; simp
  | cons r t ih =>
    intro s
    have h1 : s.successCount ≤ (aggStep s r).successCount := by
      rw [aggStep_successCount]
      cases r.alive <;> simp
    calc s.successCount ≤ (aggStep s r).successCount := h1
      _ ≤ _ := ih (aggStep s r)

/-- The success counter gains at most one per probe attempt. -/
theorem foldl_aggStep_successCount_le (rs : List ProbeResult) :
    ∀ s : AggState,
      (List.foldl aggStep s rs).successCount ≤ s.successCount + rs.length := by
  induction rs with
  | nil => intro s; simp
  | cons r t ih =>
    intro s
    have h1 : (aggStep s r).successCount ≤ s.successCount + 1 := by
      rw [aggStep_successCount]
      cases r.alive <;> simp
    calc (List.foldl aggStep (aggStep s r) t).successCount
        ≤ (aggStep s r).successCount + t.length := ih (aggStep s r)
      _ ≤ s.successCount + 1 + t.length := by omega
      _ = s.successCount + (r :: t).length := by simp; omega

theorem aggregate_successCount_le (rs : List ProbeResult) :
    (aggregate rs).successCount ≤ rs.length := by
  have := foldl_aggStep_successCount_le rs aggInit
  simpa [aggregate, aggInit] using this

/-- If the success counter did not move across the loop, the latency
statistics did not move either. -/
theorem foldl_aggStep_stats_frozen (rs : List ProbeResult) :
    ∀ s : AggState, (List.foldl aggStep s rs).successCount = s.successCount →
      (List.foldl aggStep s rs).minTime = s.minTime ∧
      (List.foldl aggStep s rs).maxTime = s.maxTime ∧
      (List.foldl aggStep s rs).totalTime = s.totalTime := by
  induction rs with
  | nil => intro s _; simp
  | cons r t ih =>
    intro s h
    rw [List.foldl_cons] at h
    have hmono := foldl_aggStep_successCount_mono t (aggStep s r)
    have hr : r.alive = false := by
      cases hr : r.alive with
      | false => rfl
      | true =>
        have : (aggStep s r).successCount = s.successCount + 1 := by
          rw [aggStep_successCount, hr, if_pos rfl]
        omega
    have hstep_sc : (aggStep s r).successCount = s.successCount := by
      rw [aggStep_successCount, hr]
      simp
    have hfields : (aggStep s r).minTime = s.minTime ∧
        (aggStep s r).maxTime = s.maxTime ∧
        (aggStep s r).totalTime = s.totalTime := by
      simp [aggStep, hr]
    have hrec := ih (aggStep s r) (by omega)
    rw [List.foldl_cons]
    exact ⟨hrec.1.trans hfields.1, hrec.2.1.trans hfields.2.1,
      hrec.2.2.trans hfields.2.2⟩

/-- A cycle with no successful attempt leaves the statistics at their
initial values: `minTime = Infinity` (`none`), `maxTime = 0`,
`totalTime = 0`. -/
theorem aggregate_all_failed (rs : List ProbeResult)
    (h : (aggregate rs).successCount = 0) :
    (aggregate rs).minTime = none ∧ (aggregate rs).maxTime = 0 ∧
      (aggregate rs).totalTime = 0 := by
  have h0 : (aggregate rs).successCount = aggInit.successCount := by
    simpa [aggInit] using h
  have := foldl_aggStep_stats_frozen rs aggInit h0
  simpa [aggregate, aggInit] using this

theorem avgTime_of_no_success (agg : AggState) (h : agg.successCount = 0) :
    avgTime agg = 0 := by
  simp [avgTime, h]

/-- C4 counterexample: one all-failed cycle (`successCount = 0`) still puts
the numeric value 0 into the `responseTimeMs` output field, which carries
the average latency — a numeric 0 visible to the caller, not the "N/A"
sentinel. -/
theorem C4_numeric_zero_leaks :
    (aggregate [deadProbe]).successCount = 0 ∧
    (pingPoll "example.com" (mkPingCfg "everyPoll" 2) initialNodeState
        [deadProbe]).responseTimeMs = 0 ∧
    (pingPoll "example.com" (mkPingCfg "everyPoll" 2) initialNodeState
        [deadProbe]).fired = true := by
  refine ⟨rfl, rfl, rfl⟩

/-- C4 as amended: when every attempt fails, the formatted latency fields
(`responseTime`, `details.minTime`, `details.maxTime` of the trigger node,
`averageTime`/`minTime`/`maxTime` of the details of the Ping node) are the "N/A"
sentinel and the internal `Infinity` never leaks, but the numeric
`responseTimeMs` field of the trigger node carries the value 0. -/
theorem C4_all_failed_sentinels (host : String) (cfg : PingPollConfig)
    (st : NodeState) (rs : List ProbeResult) (n : Nat)
    (h : (aggregate rs).successCount = 0) :
    (pingPoll host cfg st rs).responseTime = "N/A" ∧
    (pingPoll host cfg st rs).minTime = "N/A" ∧
    (pingPoll host cfg st rs).maxTime = "N/A" ∧
    (pingPoll host cfg st rs).responseTimeMs = 0 ∧
    (pingExecDetailsOf n (aggregate rs)).averageTime = "N/A" ∧
    (pingExecDetailsOf n (aggregate rs)).minTime = "N/A" ∧
    (pingExecDetailsOf n (aggregate rs)).maxTime = "N/A" := by
  obtain ⟨hmin, hmax, _⟩ := aggregate_all_failed rs h
  have havg : avgTime (aggregate rs) = 0 := avgTime_of_no_success _ h
  refine ⟨?_, ?_, ?_, ?_, ?_, ?_, ?_⟩
  · show (if avgTime (aggregate rs) > 0 then toString (avgTime (aggregate rs)) ++ " ms"
      else "N/A") = "N/A"
    rw [havg]
    simp
  · show (match (aggregate rs).minTime with
      | some m => toString m ++ " ms"
      | none => "N/A") = "N/A"
    rw [hmin]
  · show (if (aggregate rs).maxTime > 0 then toString (aggregate rs).maxTime ++ " ms"
      else "N/A") = "N/A"
    rw [hmax]
    simp
  · show avgTime (aggregate rs) = 0
    exact havg
  · simp [pingExecDetailsOf, havg]
  · simp [pingExecDetailsOf, hmin]
  · simp [pingExecDetailsOf, hmax]

/-- Witness for the amended C4 at a concrete input: two failed pings. -/
theorem C4_all_failed_sentinels_witness :
    (pingPoll "example.com" (mkPingCfg "statusChange" 2) initialNodeState
        [deadProbe, deadProbe]).responseTime = "N/A" :=
  (C4_all_failed_sentinels "example.com" (mkPingCfg "statusChange" 2)
    initialNodeState [deadProbe, deadProbe] 2 (by decide)).1

/-- C9: for every non-empty cycle of probe attempts, the packet-loss
percentage computed by the nodes equals `100 * (attempts - successCount) /
attempts` and lies in the closed interval [0, 100]. -/
theorem C9_packet_loss_formula (rs : List ProbeResult) (h : 1 ≤ rs.length) :
    packetLoss rs.length (aggregate rs)
      = 100 * ((rs.length : ℚ) - ((aggregate rs).successCount : ℚ)) / (rs.length : ℚ) ∧
    0 ≤ packetLoss rs.length (aggregate rs) ∧
    packetLoss rs.length (aggregate rs) ≤ 100 := by
  have hle : (aggregate rs).successCount ≤ rs.length := aggregate_successCount_le rs
  have hleq : ((aggregate rs).successCount : ℚ) ≤ (rs.length : ℚ) := by
    exact_mod_cast hle
  have hn : (0 : ℚ) < (rs.length : ℚ) := by exact_mod_cast h
  refine ⟨?_, ?_, ?_⟩
  · unfold packetLoss
    ring
  · unfold packetLoss
    have hnum : (0 : ℚ) ≤ (rs.length : ℚ) - ((aggregate rs).successCount : ℚ) := by
      linarith
    have := div_nonneg hnum (le_of_lt hn)
    nlinarith
  · unfold packetLoss
    have hdiv : ((rs.length : ℚ) - ((aggregate rs).successCount : ℚ)) / (rs.length : ℚ) ≤ 1 := by
      rw [div_le_one hn]
      have : (0 : ℚ) ≤ ((aggregate rs).successCount : ℚ) := by positivity
      linarith
    nlinarith

/-- Witness for C9 at a concrete input: three attempts, one success. -/
theorem C9_packet_loss_formula_witness :
    packetLoss ([deadProbe, aliveProbe 5, deadProbe] : List ProbeResult).length
        (aggregate [deadProbe, aliveProbe 5, deadProbe]) ≤ 100 :=
  (C9_packet_loss_formula [deadProbe, aliveProbe 5, deadProbe] (by decide)).2.2

/-! ## Trigger-decision lemmas -/

theorem pingTriggerDecide_statusChange (prev : Option Bool) (cur alive : Bool)
    (avgT lt : ℚ) :
    pingTriggerDecide "statusChange" prev cur alive avgT lt
      = match prev with
        | none => (true, "Initial status check")
        | some p =>
          if p ≠ cur then
            (true, if cur then "Host came online" else "Host went offline")
          else (false, "") := by
  cases prev <;> rfl

theorem serverTriggerDecide_statusChange (prev : Option Bool) (cur reachable : Bool)
    (rt lt : ℚ) :
    serverTriggerDecide "statusChange" prev cur reachable rt lt
      = match prev with
        | none => (true, "Initial status check")
        | some p =>
          if p ≠ cur then
            (true, if cur then "Server came online" else "Server went offline")
          else (false, "") := by
  cases prev <;> rfl

theorem pingTriggerDecide_highLatency (prev : Option Bool) (cur alive : Bool)
    (avgT lt : ℚ) :
    pingTriggerDecide "highLatency" prev cur alive avgT lt
      = (if alive && decide (avgT > lt) then
          (true, "High latency detected (" ++ toString avgT ++ "ms > "
            ++ toString lt ++ "ms threshold)")
        else (false, "")) := rfl

theorem serverTriggerDecide_highLatency (prev : Option Bool) (cur reachable : Bool)
    (rt lt : ℚ) :
    serverTriggerDecide "highLatency" prev cur reachable rt lt
      = (if reachable && decide (rt > lt) then
          (true, "High latency detected (" ++ toString rt ++ "ms > "
            ++ toString lt ++ "ms threshold)")
        else (false, "")) := rfl

theorem change_branch_fst (p cur : Bool) (a b : String) :
    (if p ≠ cur then ((true : Bool), a) else (false, b)).1 = (p != cur) := by
  cases p <;> cases cur <;> simp

theorem change_branch_snd (p cur : Bool) (a : String) :
    (if p ≠ cur then ((true : Bool), a) else (false, "")).2
      = (if p != cur then a else "") := by
  cases p <;> cases cur <;> simp

theorem fire_branch_fst (b : Bool) (a c : String) :
    (if b then ((true : Bool), a) else (false, c)).1 = b := by
  cases b <;> simp

/-- C5: in statusChange mode, both trigger nodes fire on the first-ever
poll (absent `previousStatus`, reason "Initial status check"), fire exactly
when the persisted previous status differs from the current debounced
status (reason distinguishing came online from went offline), do not fire
when it is present and equal, and persist the current status as the next
previous status of the next cycle — so an unchanged status never fires twice in a
row. -/
theorem C5_statusChange_mode (host : String) (lt : ℚ) (tmo : Int) (n : Nat)
    (k : Int) (raw : Bool) (cf : Int) (rs : List ProbeResult) (st : NodeState)
    (target : String) (slt : ℚ) (stmo sk : Int) (chk : CheckResult)
    (sst : NodeState) :
    ((pingPoll host ⟨"statusChange", lt, tmo, n, k, raw⟩ ⟨none, cf⟩ rs).fired = true ∧
     (pingPoll host ⟨"statusChange", lt, tmo, n, k, raw⟩ ⟨none, cf⟩ rs).triggerReason
       = "Initial status check") ∧
    (∀ p : Bool,
      (pingPoll host ⟨"statusChange", lt, tmo, n, k, raw⟩ ⟨some p, cf⟩ rs).fired
        = (p != (pingPoll host ⟨"statusChange", lt, tmo, n, k, raw⟩
            ⟨some p, cf⟩ rs).currentStatus) ∧
      (pingPoll host ⟨"statusChange", lt, tmo, n, k, raw⟩ ⟨some p, cf⟩ rs).triggerReason
        = (if p != (pingPoll host ⟨"statusChange", lt, tmo, n, k, raw⟩
              ⟨some p, cf⟩ rs).currentStatus then
            (if (pingPoll host ⟨"statusChange", lt, tmo, n, k, raw⟩
                ⟨some p, cf⟩ rs).currentStatus then "Host came online"
             else "Host went offline")
           else "")) ∧
    ((pingPoll host ⟨"statusChange", lt, tmo, n, k, raw⟩ st rs).newState.previousStatus
       = some (pingPoll host ⟨"statusChange", lt, tmo, n, k, raw⟩ st rs).currentStatus) ∧
    ((serverCycle target ⟨"statusChange", slt, stmo, sk⟩ ⟨none, cf⟩ chk).fired = true ∧
     (serverCycle target ⟨"statusChange", slt, stmo, sk⟩ ⟨none, cf⟩ chk).triggerReason
       = "Initial status check") ∧
    (∀ p : Bool,
      (serverCycle target ⟨"statusChange", slt, stmo, sk⟩ ⟨some p, cf⟩ chk).fired
        = (p != (serverCycle target ⟨"statusChange", slt, stmo, sk⟩
            ⟨some p, cf⟩ chk).currentStatus) ∧
      (serverCycle target ⟨"statusChange", slt, stmo, sk⟩ ⟨some p, cf⟩ chk).triggerReason
        = (if p != (serverCycle target ⟨"statusChange", slt, stmo, sk⟩
              ⟨some p, cf⟩ chk).currentStatus then
            (if (serverCycle target ⟨"statusChange", slt, stmo, sk⟩
                ⟨some p, cf⟩ chk).currentStatus then "Server came online"
             else "Server went offline")
           else "")) ∧
    ((serverCycle target ⟨"statusChange", slt, stmo, sk⟩ sst chk).newState.previousStatus
       = some (serverCycle target ⟨"statusChange", slt, stmo, sk⟩ sst chk).currentStatus) := by
  refine ⟨⟨?_, ?_⟩, ?_, ?_, ⟨?_, ?_⟩, ?_, ?_⟩
  · rw [pingPoll_fired, pingTriggerDecide_statusChange]
  · rw [pingPoll_triggerReason, pingTriggerDecide_statusChange]
  · intro p
    constructor
    · rw [pingPoll_fired, pingTriggerDecide_statusChange]
      exact change_branch_fst p _ _ _
    · rw [pingPoll_triggerReason, pingTriggerDecide_statusChange]
      exact change_branch_snd p _ _
  · exact pingPoll_newState_previousStatus _ _ _ _
  · rw [serverCycle_fired, serverTriggerDecide_statusChange]
  · rw [serverCycle_triggerReason, serverTriggerDecide_statusChange]
  · intro p
    constructor
    · rw [serverCycle_fired, serverTriggerDecide_statusChange]
      exact change_branch_fst p _ _ _
    · rw [serverCycle_triggerReason, serverTriggerDecide_statusChange]
      exact change_branch_snd p _ _
  · exact serverCycle_newState_previousStatus _ _ _ _

/-- C6: in highLatency mode, with a valid threshold (≥ 1), both trigger
nodes fire exactly when the current debounced status is true and the
measured latency strictly exceeds the configured latency threshold; in
particular a cycle whose debounced status is false never fires. -/
theorem C6_highLatency_mode (host : String) (lt : ℚ) (tmo : Int) (n : Nat)
    (k : Int) (raw : Bool) (st : NodeState) (rs : List ProbeResult)
    (hk : 1 ≤ k) :
    ((pingPoll host ⟨"highLatency", lt, tmo, n, k, raw⟩ st rs).fired
      = ((pingPoll host ⟨"highLatency", lt, tmo, n, k, raw⟩ st rs).currentStatus
          && decide (avgTime (aggregate rs) > lt))) ∧
    ((pingPoll host ⟨"highLatency", lt, tmo, n, k, raw⟩ st rs).currentStatus = false →
      (pingPoll host ⟨"highLatency", lt, tmo, n, k, raw⟩ st rs).fired = false) ∧
    ∀ (target : String) (slt : ℚ) (stmo sk : Int) (sst : NodeState) (chk : CheckResult),
      1 ≤ sk →
      ((serverCycle target ⟨"highLatency", slt, stmo, sk⟩ sst chk).fired
        = ((serverCycle target ⟨"highLatency", slt, stmo, sk⟩ sst chk).currentStatus
            && decide (chk.responseTimeMs > slt))) ∧
      ((serverCycle target ⟨"highLatency", slt, stmo, sk⟩ sst chk).currentStatus = false →
        (serverCycle target ⟨"highLatency", slt, stmo, sk⟩ sst chk).fired = false) := by
  have hcur : (pingPoll host ⟨"highLatency", lt, tmo, n, k, raw⟩ st rs).currentStatus
      = aggAlive (aggregate rs) := by
    rw [pingPoll_currentStatus]
    exact debouncedStatus_update_eq_alive _ _ _ hk
  have hfired : (pingPoll host ⟨"highLatency", lt, tmo, n, k, raw⟩ st rs).fired
      = ((pingPoll host ⟨"highLatency", lt, tmo, n, k, raw⟩ st rs).currentStatus
          && decide (avgTime (aggregate rs) > lt)) := by
    rw [pingPoll_fired, pingTriggerDecide_highLatency, fire_branch_fst, hcur]
  refine ⟨hfired, ?_, ?_⟩
  · intro hfalse
    rw [hfired, hfalse]
    simp
  · intro target slt stmo sk sst chk hks
    have hcurs : (serverCycle target ⟨"highLatency", slt, stmo, sk⟩ sst chk).currentStatus
        = chk.reachable := by
      rw [serverCycle_currentStatus]
      exact debouncedStatus_update_eq_alive _ _ _ hks
    have hfireds : (serverCycle target ⟨"highLatency", slt, stmo, sk⟩ sst chk).fired
        = ((serverCycle target ⟨"highLatency", slt, stmo, sk⟩ sst chk).currentStatus
            && decide (chk.responseTimeMs > slt)) := by
      rw [serverCycle_fired, serverTriggerDecide_highLatency, fire_branch_fst, hcurs]
    refine ⟨hfireds, ?_⟩
    intro hfalse
    rw [hfireds, hfalse]
    simp

/-- Witness for C6 at a concrete input: unreachable cycle with an enormous
measured latency does not fire. -/
theorem C6_highLatency_mode_witness :
    (pingPoll "example.com" ⟨"highLatency", 100, 10, 3, 2, false⟩ initialNodeState
        [deadProbe]).fired
      = ((pingPoll "example.com" ⟨"highLatency", 100, 10, 3, 2, false⟩ initialNodeState
          [deadProbe]).currentStatus && decide (avgTime (aggregate [deadProbe]) > 100)) :=
  (C6_highLatency_mode "example.com" 100 10 3 2 false initialNodeState
    [deadProbe] (by decide)).1

/-! ## Configuration handling (C7, C8) -/

/-- C7 counterexample: an unknown `checkType` in the Server Check Trigger is
not surfaced as a configuration error — the poll silently returns the
no-event value (and does not even touch the persisted state), and an
explicitly configured `failureThreshold = 0` or `timeout = 0` is accepted
verbatim rather than rejected. -/
theorem C7_invalid_config_not_rejected :
    serverPoll "invalid" "example.com" (mkServerCfg "statusChange" 2)
        initialNodeState chkDead = none ∧
    resolveFailureThreshold (some 0) = 0 ∧
    resolveTimeout (some 0) = 0 ∧
    resolveNumberOfPings (some 0) = 0 := by
  refine ⟨rfl, rfl, rfl, rfl⟩

/-- C7 as amended: the nodes perform no numeric validation — an explicitly
configured timeout, attempt count or failure threshold is used as given
(including 0 and negative values), only an absent option receives the
documented default; an unknown `checkType` in the Server Check Trigger
yields a silent no-event poll with untouched state, while the Server Check
execute node raises `Unknown check type`; an unknown `triggerMode` yields a
silent no-fire cycle in both trigger nodes. -/
theorem C7_validation_behaviour (checkType : String)
    (h : ¬(checkType = "http" ∨ checkType = "tcp" ∨ checkType = "dns"))
    (target url method host domain : String) (acceptAnyStatus : Bool) (port : Int)
    (cfg : ServerPollConfig) (st : NodeState) (chk : CheckResult)
    (timeout elapsed : ℚ) (hev : HttpEvent) (tev : TcpEvent) (dev : DnsEvent) :
    serverPoll checkType target cfg st chk = none ∧
    serverCheckExecuteItem checkType url method acceptAnyStatus host port domain
        timeout hev tev dev elapsed
      = Except.error ("Unknown check type: " ++ checkType) ∧
    (∀ t : Int, resolveTimeout (some t) = t) ∧ resolveTimeout none = 10 ∧
    (∀ m : Int, resolveNumberOfPings (some m) = m) ∧ resolveNumberOfPings none = 3 ∧
    (∀ f : Int, resolveFailureThreshold (some f) = f) ∧
    resolveFailureThreshold none = 2 ∧
    (∀ (mode : String) (prev : Option Bool) (cur alive : Bool) (avgT lt : ℚ),
      ¬(mode = "statusChange" ∨ mode = "everyPoll" ∨ mode = "onlyOffline"
          ∨ mode = "onlyOnline" ∨ mode = "highLatency") →
      pingTriggerDecide mode prev cur alive avgT lt = (false, "") ∧
      serverTriggerDecide mode prev cur alive avgT lt = (false, "")) := by
  obtain ⟨h1, h2, h3⟩ : checkType ≠ "http" ∧ checkType ≠ "tcp" ∧ checkType ≠ "dns" := by
    constructor
    · intro hc; exact h (Or.inl hc)
    constructor
    · intro hc; exact h (Or.inr (Or.inl hc))
    · intro hc; exact h (Or.inr (Or.inr hc))
  refine ⟨?_, ?_, fun _ => rfl, rfl, fun _ => rfl, rfl, fun _ => rfl, rfl, ?_⟩
  · unfold serverPoll
    rw [if_neg h]
  · unfold serverCheckExecuteItem
    rw [if_neg h1, if_neg h2, if_neg h3]
  · intro mode prev cur alive avgT lt hm
    obtain ⟨m1, m2, m3, m4, m5⟩ : mode ≠ "statusChange" ∧ mode ≠ "everyPoll"
        ∧ mode ≠ "onlyOffline" ∧ mode ≠ "onlyOnline" ∧ mode ≠ "highLatency" := by
      refine ⟨?_, ?_, ?_, ?_, ?_⟩ <;> intro hc <;> apply hm
      · exact Or.inl hc
      · exact Or.inr (Or.inl hc)
      · exact Or.inr (Or.inr (Or.inl hc))
      · exact Or.inr (Or.inr (Or.inr (Or.inl hc)))
      · exact Or.inr (Or.inr (Or.inr (Or.inr hc)))
    constructor
    · unfold pingTriggerDecide
      rw [if_neg m1, if_neg m2, if_neg m3, if_neg m4, if_neg m5]
    · unfold serverTriggerDecide
      rw [if_neg m1, if_neg m2, if_neg m3, if_neg m4, if_neg m5]

/-- Witness for the amended C7 at a concrete input: checkType "icmp". -/
theorem C7_validation_behaviour_witness :
    serverPoll "icmp" "example.com" (mkServerCfg "statusChange" 2)
        initialNodeState chkDead = none :=
  (C7_validation_behaviour "icmp" (by decide) "example.com" "" "GET" "" ""
    true 443 (mkServerCfg "statusChange" 2) initialNodeState chkDead 10000 5
    (HttpEvent.timedOut) (TcpEvent.timedOut) (DnsEvent.timedOut)).1

/-- C8 counterexample: the Ping Trigger performs no target validation — with
an empty host the poll runs the probes, builds an ordinary
unreachable-cycle output (and under `everyPoll` even emits it) instead of
raising a configuration error. -/
theorem C8_trigger_accepts_empty_host :
    (pingPoll "" (mkPingCfg "everyPoll" 2) initialNodeState [deadProbe]).host = "" ∧
    (pingPoll "" (mkPingCfg "everyPoll" 2) initialNodeState [deadProbe]).alive = false ∧
    (pingPoll "" (mkPingCfg "everyPoll" 2) initialNodeState [deadProbe]).status
      = "offline" ∧
    (pingPoll "" (mkPingCfg "everyPoll" 2) initialNodeState [deadProbe]).fired = true := by
  refine ⟨rfl, rfl, rfl, rfl⟩

/-- C8 as amended: the execute nodes (Ping, Server Check) reject an empty
target with a configuration error before any probe runs — `Host is
required`, `URL is required`, `Domain is required` — while the Ping Trigger
performs no such validation: an empty host flows into the probe loop and the
cycle completes as ordinary probe data. -/
theorem C8_empty_target_validation (n : Nat) (incl : Bool) (rs : List ProbeResult)
    (method : String) (accept : Bool) (port : Int) (timeout elapsed : ℚ)
    (hev : HttpEvent) (tev : TcpEvent) (dev : DnsEvent)
    (cfg : PingPollConfig) (st : NodeState) :
    pingExecuteItem "" n incl rs = Except.error "Host is required" ∧
    execHttpCheck "" method accept timeout hev elapsed
      = Except.error "URL is required" ∧
    execTcpCheck "" port timeout tev elapsed = Except.error "Host is required" ∧
    execDnsCheck "" timeout dev elapsed = Except.error "Domain is required" ∧
    (pingPoll "" cfg st rs).host = "" ∧
    (pingPoll "" cfg st rs).alive = aggAlive (aggregate rs) := by
  refine ⟨rfl, rfl, rfl, rfl, rfl, rfl⟩

/-! ## HTTP reachability policy (C10) -/

/-- C10: when the HTTP check of the Server Check execute node receives a
response, reachability follows the configured policy — with
`acceptAnyStatus` (whose documented default is true) every status code
counts as reachable, without it exactly the codes in [200, 400) do; the
HTTP check of the trigger node marks every response reachable, i.e. behaves as
the default policy.  The check consumes a single request/response event:
there is no internal retry. -/
theorem C10_http_reachability_policy (url method : String) (accept : Bool)
    (timeout elapsed : ℚ) (code : Nat) (msg : String) (hurl : url ≠ "") :
    (∃ out : ExecCheckOut,
      execHttpCheck url method accept timeout (HttpEvent.response code msg) elapsed
        = Except.ok out ∧
      out.reachable
        = (if accept then true else decide (code ≥ 200) && decide (code < 400)) ∧
      (accept = true → out.reachable = true) ∧
      (accept = false → (out.reachable = true ↔ 200 ≤ code ∧ code < 400))) ∧
    acceptAnyStatusDefault = true ∧
    (triggerHttpCheck (HttpEvent.response code msg) timeout elapsed).reachable
      = true := by
  refine ⟨?_, rfl, rfl⟩
  unfold execHttpCheck
  rw [if_neg hurl]
  refine ⟨_, rfl, rfl, ?_, ?_⟩
  · intro ha
    simp [ha]
  · intro ha
    simp [ha]

/-- Witness for C10 at a concrete input: a 500 response with the policy
disabled is not reachable (and with it enabled it is). -/
theorem C10_http_reachability_policy_witness :
    ∃ out : ExecCheckOut,
      execHttpCheck "http://example.com" "GET" false 10000
          (HttpEvent.response 500 "Internal Server Error") 42
        = Except.ok out ∧
      out.reachable
        = (if false then true else decide (500 ≥ 200) && decide (500 < 400)) ∧
      (false = true → out.reachable = true) ∧
      (false = false → (out.reachable = true ↔ 200 ≤ 500 ∧ 500 < 400)) :=
  (C10_http_reachability_policy "http://example.com" "GET" false 10000 42 500
    "Internal Server Error" (by decide)).1

end PingNodes
